import Mathlib

/-!
Shallow embedding of `src/main.py` of `audio-wipeout-cf`: an HTTP handler
`fetch_redacted_transcripts_and_delete_audio` that queries a transcript table
for sessions whose utterances contain the literal `[redacted]`, deletes the
corresponding audio objects from a storage bucket, and appends an audit
record per fully deleted session.

The external cloud services (BigQuery query execution, object-store listing
and deletion, streaming audit inserts) are modelled as an environment record
of response functions; the handler body is translated statement by statement,
with its four counters and its observable side effects (listings performed,
objects deleted, audit-insert calls made) threaded through an explicit state.
Python exceptions are modelled as an `Option String` escape channel so that
the counter increments that happened before a raise are kept, exactly as
mutation keeps them in the source.
-/

/-- Model of a Python `datetime` value (second granularity, UTC). -/
structure Timestamp where
  year : Nat
  month : Nat
  day : Nat
  hour : Nat
  minute : Nat
  second : Nat
deriving DecidableEq, Repr

/-- Zero-pad a numeral to two digits, as `strftime`/`isoformat` do. -/
def pad2 (n : Nat) : String :=
  if n < 10 then "0" ++ toString n else toString n

/-- Zero-pad a year to four digits, as `strftime("%Y")` does. -/
def pad4 (n : Nat) : String :=
  if n < 10 then "000" ++ toString n
  else if n < 100 then "00" ++ toString n
  else if n < 1000 then "0" ++ toString n
  else toString n

/-- `request_time.strftime("%Y-%m-%d")` from `main.py` line 151. -/
def dateStr (t : Timestamp) : String :=
  pad4 t.year ++ "-" ++ pad2 t.month ++ "-" ++ pad2 t.day

/-- Python `datetime.isoformat()` (seconds granularity). -/
def isoformat (t : Timestamp) : String :=
  dateStr t ++ "T" ++ pad2 t.hour ++ ":" ++ pad2 t.minute ++ ":" ++ pad2 t.second

/-- One row inserted into the wipeout log table (`rows_to_insert` element,
`main.py` lines 179-185). -/
structure AuditRecord where
  session_id : String
  request_timestamp : String
  deleted_timestamp : String
deriving DecidableEq, Repr

/-- One result row of the BigQuery query, as consumed by the handler loop
(`main.py` lines 136-141). -/
structure SessionRow where
  session_id : String
  project_id : String
  agent_id : String
  request_time : Timestamp
deriving DecidableEq, Repr

/-- The handler's mutable counters plus the observable effects performed so
far: which (bucket, prefix) listings were issued, which objects were deleted,
and which audit-insert calls were made (table path with the record). -/
structure RunState where
  scanned_session_count : Nat := 0
  deleted_folder_count : Nat := 0
  deleted_file_count : Nat := 0
  error_count : Nat := 0
  listings : List (String × String) := []
  deletedObjects : List String := []
  auditCalls : List (String × AuditRecord) := []
deriving DecidableEq, Repr

def initState : RunState := {}

/-- The environment of external cloud services for one invocation:
whether the global clients initialized, the query result (or raised
exception), the object store's responses to listing and per-object deletion,
the audit insert outcome (`.error` = raised exception, `.ok errs` = the
per-row error list the API returns), and the current UTC time. -/
structure CloudEnv where
  clientsInit : Bool
  runQuery : Except String (List SessionRow)
  listBlobs : String → String → Except String (List String)
  deleteBlob : String → Except String Unit
  insertRowsJson : String → List AuditRecord → Except String (List String)
  utcnow : Timestamp

/-- A per-brand configuration dictionary; every field is read with `.get`
in the source, hence optional. -/
structure BrandConfig where
  TRANSCRIPTS_TABLE_PATH : Option String := none
  BUCKET_NAME : Option String := none
  WIPEOUT_LOG_TABLE_PATH : Option String := none
  GCS_PATH_TEMPLATE : Option String := none
deriving DecidableEq, Repr

/-- `MCDONALDS_CONFIG` from `main.py` lines 12-17. -/
def MCDONALDS_CONFIG : BrandConfig :=
  { TRANSCRIPTS_TABLE_PATH := some "mcdonalds-ttm.transcripts_decibel.prod"
    BUCKET_NAME := some "mcdonalds-ttm-audio"
    WIPEOUT_LOG_TABLE_PATH := some "foodai-analytics.audio_wipeout_dataset.mcdonalds_prod_log"
    GCS_PATH_TEMPLATE := some "mcdonalds-ttm/{agent_id}/{date_str}/{session_id}/" }

/-- `BRAND_CONFIGS` from `main.py` lines 20-22. -/
def BRAND_CONFIGS : List (String × BrandConfig) :=
  [("mcdonalds", MCDONALDS_CONFIG)]

/-- Python truthiness test used on configuration strings: `not x` is true
for both `None` and the empty string. -/
def optFalsy : Option String → Bool
  | none => true
  | some s => s.isEmpty

/-- Python `dict.get` over the brand registry. -/
def dictGet (configs : List (String × BrandConfig)) (k : String) : Option BrandConfig :=
  match configs.find? (fun p => p.1 == k) with
  | some p => some p.2
  | none => none

/-- Model of Python `str.format(agent_id=a, date_str=d, session_id=s)` on
the path templates this program uses: each `{agent_id}`, `{date_str}`,
`{session_id}` placeholder is replaced verbatim (substituted text is not
rescanned, as in Python), any other `{`-placeholder raises (`KeyError` /
`ValueError`), and remaining characters are copied through. -/
def pyFormatAux (a d s : String) : List Char → Except String (List Char)
  | [] => .ok []
  | '{' :: 'a' :: 'g' :: 'e' :: 'n' :: 't' :: '_' :: 'i' :: 'd' :: '}' :: rest =>
      (pyFormatAux a d s rest).map (fun t => a.data ++ t)
  | '{' :: 'd' :: 'a' :: 't' :: 'e' :: '_' :: 's' :: 't' :: 'r' :: '}' :: rest =>
      (pyFormatAux a d s rest).map (fun t => d.data ++ t)
  | '{' :: 's' :: 'e' :: 's' :: 's' :: 'i' :: 'o' :: 'n' :: '_' :: 'i' :: 'd' :: '}' :: rest =>
      (pyFormatAux a d s rest).map (fun t => s.data ++ t)
  | '{' :: _ => .error "KeyError: unknown placeholder in path template"
  | c :: rest => (pyFormatAux a d s rest).map (fun t => c :: t)

/-- `gcs_path_template.format(agent_id=..., date_str=..., session_id=...)`
(`main.py` lines 152-154). -/
def pyFormat (tmpl a d s : String) : Except String String :=
  (pyFormatAux a d s tmpl.data).map (fun l => String.mk l)

example : pyFormat "x/{agent_id}/{date_str}/{session_id}/" "A" "D" "S" = .ok "x/A/D/S/" := by
  rfl

example : pyFormat "x/{oops}/" "A" "D" "S" =
    .error "KeyError: unknown placeholder in path template" := by rfl

example : dateStr ⟨2024, 3, 5, 10, 0, 0⟩ = "2024-03-05" := by rfl

example : isoformat ⟨2024, 3, 5, 10, 0, 0⟩ = "2024-03-05T10:00:00" := by rfl

/-- The deletion loop `for blob in blobs_to_delete: blob.delete();
deleted_file_count += 1` (`main.py` lines 170-172).  A raised deletion leaves
the increments already performed in place and escapes with the exception. -/
def deleteBlobs (env : CloudEnv) : List String → RunState → RunState × Option String
  | [], st => (st, none)
  | b :: bs, st =>
    match env.deleteBlob b with
    | .error e => (st, some e)
    | .ok _ =>
      deleteBlobs env bs
        { st with deleted_file_count := st.deleted_file_count + 1
                  deletedObjects := st.deletedObjects ++ [b] }

/-- The body of the inner `try` block (`main.py` lines 159-196): list the
blobs under the prefix, return early if none, delete each, bump the folder
counter, and (when a log table is configured) call `insert_rows_json`.
The second component is the exception escaping the `try` body, if any.
The source sets `insert_errors = None` and never reads the value returned
by `insert_rows_json`, so the error branch of `if not insert_errors` is
kept here verbatim as the dead code it is. -/
def sessionTryBody (env : CloudEnv) (bucketName : String) (logTable : Option String)
    (sid : String) (reqTime : Timestamp) (pfx : String) (st : RunState) :
    RunState × Option String :=
  let st := { st with listings := st.listings ++ [(bucketName, pfx)] }
  match env.listBlobs bucketName pfx with
  | .error e => (st, some e)
  | .ok blobs =>
    if blobs.isEmpty then (st, none)
    else
      match deleteBlobs env blobs st with
      | (st2, some e) => (st2, some e)
      | (st2, none) =>
        let st3 := { st2 with deleted_folder_count := st2.deleted_folder_count + 1 }
        match logTable with
        | none => (st3, none)
        | some tbl =>
          let record : AuditRecord := ⟨sid, isoformat reqTime, isoformat env.utcnow⟩
          let st4 := { st3 with auditCalls := st3.auditCalls ++ [(tbl, record)] }
          match env.insertRowsJson tbl [record] with
          | .error e => (st4, some e)
          | .ok _returned =>
            let insert_errors : List String := []
            if insert_errors.isEmpty then (st4, none)
            else ({ st4 with error_count := st4.error_count + 1 }, none)

/-- One iteration of `for row in query_job` (`main.py` lines 134-202):
bump the scanned counter, skip deletion when bucket or template is falsy,
render the prefix (whose exceptions happen OUTSIDE the inner `try` and thus
escape in the second component), then run the `try` body, converting its
escape into `error_count += 1`. -/
def processSession (env : CloudEnv) (bucketName tmpl logTable : Option String)
    (row : SessionRow) (st : RunState) : RunState × Option String :=
  let st := { st with scanned_session_count := st.scanned_session_count + 1 }
  if optFalsy bucketName || optFalsy tmpl then (st, none)
  else
    let date_str := dateStr row.request_time
    match pyFormat (tmpl.getD "") row.agent_id date_str row.session_id with
    | .error e => (st, some e)
    | .ok folderPfx =>
      match sessionTryBody env (bucketName.getD "") logTable
          row.session_id row.request_time folderPfx st with
      | (st2, none) => (st2, none)
      | (st2, some _e) => ({ st2 with error_count := st2.error_count + 1 }, none)

/-- The whole result loop; an exception escaping one session's processing
aborts the remaining rows and escapes to the outer handler. -/
def processRows (env : CloudEnv) (bucketName tmpl logTable : Option String) :
    List SessionRow → RunState → RunState × Option String
  | [], st => (st, none)
  | r :: rs, st =>
    match processSession env bucketName tmpl logTable r st with
    | (st2, some e) => (st2, some e)
    | (st2, none) => processRows env bucketName tmpl logTable rs st2

/-- The handler's HTTP response together with the final effect state and
whether the BigQuery query was submitted at all. -/
structure HandlerResult where
  body : String
  status : Nat
  state : RunState
  queryRan : Bool
deriving Repr

/-- `request.get_json(silent=True)`: `none` for no JSON payload, otherwise
the JSON object as a key/value list (an empty object is falsy in Python). -/
abbrev Request := Option (List (String × String))

/-- Python `str.lower()` (ASCII case folding). -/
def pyLower (s : String) : String := String.mk (s.data.map Char.toLower)

def lookupKey (kvs : List (String × String)) (k : String) : Option String :=
  (kvs.find? (fun p => p.1 == k)).map (fun p => p.2)

/-- The summary message built at `main.py` lines 208-212. -/
def summaryMessage (brand : String) (st : RunState) : String :=
  "Job finished for brand '" ++ brand ++ "'. Found " ++
    toString st.scanned_session_count ++ " sessions matching criteria. " ++
    "Successfully deleted " ++ toString st.deleted_folder_count ++ " folders (" ++
    toString st.deleted_file_count ++ " total files). Encountered " ++
    toString st.error_count ++ " errors during GCS deletion."

def badRequestResult : HandlerResult :=
  ⟨"Bad Request: Missing JSON payload with 'brand' key.", 400, initState, false⟩

/-- `fetch_redacted_transcripts_and_delete_audio`, parametrized by the brand
configuration registry (the module-level `BRAND_CONFIGS` dictionary).
Follows `main.py` lines 37-214 step by step: client check, payload check,
brand resolution, mandatory-table check, query execution, row loop, summary;
the outer `except` turns any escaping exception into a 500 response. -/
def handlerWith (configs : List (String × BrandConfig)) (env : CloudEnv)
    (request : Request) : HandlerResult :=
  if !env.clientsInit then
    ⟨"Cloud clients are not initialized. The function cannot proceed.", 500, initState, false⟩
  else
    match request with
    | none => badRequestResult
    | some kvs =>
      if kvs.isEmpty then badRequestResult
      else
        match lookupKey kvs "brand" with
        | none => badRequestResult
        | some brandRaw =>
          let brand := pyLower brandRaw
          match dictGet configs brand with
          | none =>
            ⟨"Configuration Error: Invalid brand '" ++ brand ++ "'. Available brands: " ++
              toString (configs.map (fun p => p.1)), 400, initState, false⟩
          | some config =>
            if optFalsy config.TRANSCRIPTS_TABLE_PATH then
              ⟨"Configuration Error: 'TRANSCRIPTS_TABLE_PATH' not set for brand '" ++
                brand ++ "'.", 500, initState, false⟩
            else
              match env.runQuery with
              | .error e =>
                ⟨"Job failed for brand '" ++ brand ++ "' with error: " ++ e, 500,
                  initState, true⟩
              | .ok rows =>
                match processRows env config.BUCKET_NAME config.GCS_PATH_TEMPLATE
                    config.WIPEOUT_LOG_TABLE_PATH rows initState with
                | (st, some e) =>
                  ⟨"Job failed for brand '" ++ brand ++ "' with error: " ++ e, 500, st, true⟩
                | (st, none) => ⟨summaryMessage brand st, 200, st, true⟩

/-- The deployed entry point: `handlerWith` at the static `BRAND_CONFIGS`. -/
def fetch_redacted_transcripts_and_delete_audio (env : CloudEnv) (request : Request) :
    HandlerResult :=
  handlerWith BRAND_CONFIGS env request

/-! ## Semantics of the BigQuery query (`main.py` lines 96-123)

The query over the transcripts table: within the 60-minute trailing window,
split `conversation_name` on `/` and take offsets 1, 5, 7 (an out-of-range
`OFFSET` is a query error in BigQuery), keep rows whose utterance matches
`LIKE '%[redacted]%'` (the pattern has no `%`/`_` inside, so it is a
case-sensitive substring test; `NULL` utterances do not match), optionally
exclude sessions present in the wipeout log (`LEFT JOIN ... IS NULL`), and
return the `SELECT DISTINCT` of the four selected columns. -/

/-- One source row of the transcripts table as the query reads it:
`request_time` in epoch seconds, the composite `conversation_name`, and
the (nullable) flattened user-utterance string. -/
structure TTurn where
  conversation_name : String
  request_time : Int
  customer_utterance : Option String
deriving DecidableEq, Repr

/-- The columns computed by the `ConversationTurn` CTE for one row. -/
structure ParsedTurn where
  session_id : String
  project_id : String
  agent_id : String
  request_time : Int
  customer_utterance : Option String
deriving DecidableEq, Repr

/-- One row of the final `SELECT DISTINCT` list. -/
structure CandRow where
  session_id : String
  project_id : String
  agent_id : String
  request_time : Int
deriving DecidableEq, Repr

/-- `SPLIT(conversation_name, "/")[OFFSET(n)]`: BigQuery raises when `n` is
out of range. -/
def arrOffset (l : List String) (n : Nat) : Except String String :=
  match l.get? n with
  | some s => .ok s
  | none => .error "Array index OFFSET is out of bounds"

/-- Substring test on character lists. -/
def listContains (needle : List Char) : List Char → Bool
  | [] => needle.isEmpty
  | c :: rest => needle.isPrefixOf (c :: rest) || listContains needle rest

/-- `x LIKE '%[redacted]%'` for a nullable string: the pattern contains no
wildcard metacharacters, so it is a plain case-sensitive substring test,
false on `NULL`. -/
def likeRedacted : Option String → Bool
  | none => false
  | some s => listContains "[redacted]".data s.data

/-- Split a character list at every occurrence of `sep` (the semantics of
`SPLIT(s, "/")` for a one-character separator: `n` separators yield `n + 1`
fields, empty fields included). -/
def splitChars (sep : Char) : List Char → List (List Char)
  | [] => [[]]
  | c :: rest =>
    if c = sep then [] :: splitChars sep rest
    else
      match splitChars sep rest with
      | [] => [[c]]
      | g :: gs => (c :: g) :: gs

/-- `SPLIT(conversation_name, "/")`. -/
def splitSlash (s : String) : List String :=
  (splitChars '/' s.data).map (fun l => String.mk l)

example : splitSlash "projects/p/locations/l/agents/a/sessions/s" =
    ["projects", "p", "locations", "l", "agents", "a", "sessions", "s"] := by rfl

/-- The `ConversationTurn` CTE projection for one source row. -/
def parseTurn (t : TTurn) : Except String ParsedTurn := do
  let parts := splitSlash t.conversation_name
  let project_id ← arrOffset parts 1
  let agent_id ← arrOffset parts 5
  let session_id ← arrOffset parts 7
  .ok ⟨session_id, project_id, agent_id, t.request_time, t.customer_utterance⟩

/-- The `WHERE` clause on a CTE row: the `LIKE` filter plus the `IS NOT NULL`
guards (session id and agent id come out of `SPLIT`, whose elements are
never `NULL`, and `request_time` is modelled non-null) plus the optional
wipeout-log exclusion `log.session_id IS NULL`. -/
def keepTurn (logSessionIds : Option (List String)) (p : ParsedTurn) : Bool :=
  likeRedacted p.customer_utterance &&
    (match logSessionIds with
     | none => true
     | some ids => !(ids.contains p.session_id))

/-- The full query result: time-window filter, CTE projection (any projection
error aborting the whole query), `WHERE` filter, then `SELECT DISTINCT` of
(session_id, project_id, agent_id, request_time). `now` is
`CURRENT_TIMESTAMP()` in epoch seconds; `logSessionIds` is `some` of the log
table's session ids when `log_table_path` is configured. -/
def queryRows (table : List TTurn) (now : Int) (logSessionIds : Option (List String)) :
    Except String (List CandRow) :=
  match (table.filter (fun t => now - 60 * 60 ≤ t.request_time)).mapM parseTurn with
  | .error e => .error e
  | .ok turns =>
    .ok (((turns.filter (keepTurn logSessionIds)).map
      (fun p => CandRow.mk p.session_id p.project_id p.agent_id p.request_time)).dedup)

example :
    queryRows
      [⟨"projects/p/locations/l/agents/a/sessions/s", 100, some "hi [redacted] x"⟩] 100 none
      = .ok [⟨"s", "p", "a", 100⟩] := by rfl

/-! ## Helper lemmas -/

/-- When every listed object deletes successfully, the deletion loop adds
one file-count increment and one deleted object per blob and does not raise. -/
lemma deleteBlobs_all_ok (env : CloudEnv) (blobs : List String) (st : RunState)
    (h : ∀ b ∈ blobs, env.deleteBlob b = .ok ()) :
    deleteBlobs env blobs st =
      ({ st with deleted_file_count := st.deleted_file_count + blobs.length
                 deletedObjects := st.deletedObjects ++ blobs }, none) := by
  induction blobs generalizing st with
  | nil => simp [deleteBlobs]
  | cons b bs ih =>
    have hb : env.deleteBlob b = .ok () := h b (by simp)
    simp only [deleteBlobs, hb]
    rw [ih _ (fun x hx => h x (by simp [hx]))]
    simp [List.append_assoc, Nat.add_comm, Nat.add_left_comm, Nat.add_assoc]

/-- When the deletions succeed up to a blob whose deletion raises, the loop
keeps the increments already made and escapes with that exception. -/
lemma deleteBlobs_fails_at (env : CloudEnv) (good : List String) (badBlob : String)
    (rest : List String) (st : RunState) (e : String)
    (hgood : ∀ b ∈ good, env.deleteBlob b = .ok ())
    (hbad : env.deleteBlob badBlob = .error e) :
    deleteBlobs env (good ++ badBlob :: rest) st =
      ({ st with deleted_file_count := st.deleted_file_count + good.length
                 deletedObjects := st.deletedObjects ++ good }, some e) := by
  induction good generalizing st with
  | nil => simp [deleteBlobs, hbad]
  | cons b bs ih =>
    have hb : env.deleteBlob b = .ok () := hgood b (by simp)
    have step : deleteBlobs env ((b :: bs) ++ badBlob :: rest) st =
        deleteBlobs env (bs ++ badBlob :: rest)
          { st with deleted_file_count := st.deleted_file_count + 1
                    deletedObjects := st.deletedObjects ++ [b] } := by
      simp only [List.cons_append, deleteBlobs, hb]
      rfl
    rw [step, ih _ (fun x hx => hgood x (by simp [hx]))]
    simp [List.append_assoc, Nat.add_comm, Nat.add_left_comm, Nat.add_assoc]

/-- The deletion loop never touches the error counter. -/
lemma deleteBlobs_error_count (env : CloudEnv) (bs : List String) (st : RunState) :
    ((deleteBlobs env bs st).1).error_count = st.error_count := by
  induction bs generalizing st with
  | nil => rfl
  | cons b bs ih =>
    simp only [deleteBlobs]
    cases env.deleteBlob b with
    | error e => rfl
    | ok u => exact ih _

/-- The deletion loop never touches the scanned counter. -/
lemma deleteBlobs_scanned (env : CloudEnv) (bs : List String) (st : RunState) :
    ((deleteBlobs env bs st).1).scanned_session_count = st.scanned_session_count := by
  induction bs generalizing st with
  | nil => rfl
  | cons b bs ih =>
    simp only [deleteBlobs]
    cases env.deleteBlob b with
    | error e => rfl
    | ok u => exact ih _

/-- The inner `try` body never touches the error counter (its only
`error_count` increment sits in the dead `insert_errors` branch). -/
lemma sessionTryBody_error_count (env : CloudEnv) (bucketName : String)
    (logTable : Option String) (sid : String) (reqTime : Timestamp) (pfx : String)
    (st : RunState) :
    ((sessionTryBody env bucketName logTable sid reqTime pfx st).1).error_count
      = st.error_count := by
  unfold sessionTryBody
  cases env.listBlobs bucketName pfx with
  | error e => rfl
  | ok blobs =>
    simp only
    by_cases hbe : blobs.isEmpty
    · simp [hbe]
    · simp only [hbe, if_neg, Bool.false_eq_true]
      have hdb := deleteBlobs_error_count env blobs
        { st with listings := st.listings ++ [(bucketName, pfx)] }
      cases h : deleteBlobs env blobs
          { st with listings := st.listings ++ [(bucketName, pfx)] } with
      | mk st2 esc =>
        rw [h] at hdb
        cases esc with
        | some e => simpa using hdb
        | none =>
          cases logTable with
          | none => simpa using hdb
          | some tbl =>
            simp only
            cases env.insertRowsJson tbl
                [⟨sid, isoformat reqTime, isoformat env.utcnow⟩] with
            | error e => simpa using hdb
            | ok r => simpa using hdb

/-- The inner `try` body never touches the scanned counter. -/
lemma sessionTryBody_scanned (env : CloudEnv) (bucketName : String)
    (logTable : Option String) (sid : String) (reqTime : Timestamp) (pfx : String)
    (st : RunState) :
    ((sessionTryBody env bucketName logTable sid reqTime pfx st).1).scanned_session_count
      = st.scanned_session_count := by
  unfold sessionTryBody
  cases env.listBlobs bucketName pfx with
  | error e => rfl
  | ok blobs =>
    simp only
    by_cases hbe : blobs.isEmpty
    · simp [hbe]
    · simp only [hbe, if_neg, Bool.false_eq_true]
      have hdb := deleteBlobs_scanned env blobs
        { st with listings := st.listings ++ [(bucketName, pfx)] }
      cases h : deleteBlobs env blobs
          { st with listings := st.listings ++ [(bucketName, pfx)] } with
      | mk st2 esc =>
        rw [h] at hdb
        cases esc with
        | some e => simpa using hdb
        | none =>
          cases logTable with
          | none => simpa using hdb
          | some tbl =>
            simp only
            cases env.insertRowsJson tbl
                [⟨sid, isoformat reqTime, isoformat env.utcnow⟩] with
            | error e => simpa using hdb
            | ok r => simpa using hdb

/-- Splitting the row loop at a clean (non-escaping) prefix of rows. -/
lemma processRows_append (env : CloudEnv) (bucketName tmpl logTable : Option String)
    (xs ys : List SessionRow) (st stM : RunState)
    (h : processRows env bucketName tmpl logTable xs st = (stM, none)) :
    processRows env bucketName tmpl logTable (xs ++ ys) st =
      processRows env bucketName tmpl logTable ys stM := by
  induction xs generalizing st with
  | nil =>
    simp only [processRows] at h
    cases h
    rfl
  | cons x xs ih =>
    simp only [List.cons_append, processRows] at h ⊢
    cases hx : processSession env bucketName tmpl logTable x st with
    | mk st2 esc =>
      rw [hx] at h
      cases esc with
      | some e => exact absurd h (by simp)
      | none => exact ih _ h

/-- `pyFormatAux` on the mcdonalds path template, at the character level. -/
lemma pyFormatAux_mcd (a d s : String) :
    pyFormatAux a d s "mcdonalds-ttm/{agent_id}/{date_str}/{session_id}/".data =
      .ok ("mcdonalds-ttm/".data ++
        (a.data ++ ('/' :: (d.data ++ ('/' :: (s.data ++ ['/'])))))) :=
  rfl

/-! ## Claim theorems -/

/-- C1: for a candidate session of a brand with a configured bucket and path
template, if listing the session's prefix yields a non-empty object list,
every individual deletion succeeds, and the audit insert call returns, then
the handler deletes exactly those objects, increments the deleted-folder
counter by 1 and the deleted-file counter by the number of objects, leaves
the error counter unchanged, and makes exactly one audit-insert call carrying
the session id, the ISO-8601 original request timestamp, and the ISO-8601
current UTC deletion timestamp. -/
theorem c1_successful_deletion_counts (env : CloudEnv)
    (bucketName tmpl logTable : Option String) (row : SessionRow) (st : RunState)
    (pfx tbl : String) (blobs insResult : List String)
    (hb : optFalsy bucketName = false) (ht : optFalsy tmpl = false)
    (hfmt : pyFormat (tmpl.getD "") row.agent_id (dateStr row.request_time) row.session_id
      = .ok pfx)
    (hl : env.listBlobs (bucketName.getD "") pfx = .ok blobs)
    (hne : blobs ≠ [])
    (hdel : ∀ b ∈ blobs, env.deleteBlob b = .ok ())
    (hlog : logTable = some tbl)
    (hins : env.insertRowsJson tbl
      [⟨row.session_id, isoformat row.request_time, isoformat env.utcnow⟩]
      = .ok insResult) :
    processSession env bucketName tmpl logTable row st =
      ({ st with
          scanned_session_count := st.scanned_session_count + 1
          deleted_folder_count := st.deleted_folder_count + 1
          deleted_file_count := st.deleted_file_count + blobs.length
          listings := st.listings ++ [(bucketName.getD "", pfx)]
          deletedObjects := st.deletedObjects ++ blobs
          auditCalls := st.auditCalls ++
            [(tbl, ⟨row.session_id, isoformat row.request_time, isoformat env.utcnow⟩)] },
        none) := by
  subst hlog
  have hempty : blobs.isEmpty = false := by
    cases blobs with
    | nil => exact absurd rfl hne
    | cons x xs => rfl
  simp only [processSession, hb, ht, Bool.or_self, Bool.false_eq_true, if_false, hfmt,
    sessionTryBody, hl, hempty]
  rw [deleteBlobs_all_ok env blobs _ hdel]
  simp [hins]

/-- Environment for the C1 witness: listing yields two objects, every
deletion succeeds, the audit insert returns with no per-row errors. -/
def envC1 : CloudEnv :=
  { clientsInit := true
    runQuery := .ok []
    listBlobs := fun _ _ => .ok ["audio-0.wav", "audio-1.wav"]
    deleteBlob := fun _ => .ok ()
    insertRowsJson := fun _ _ => .ok []
    utcnow := ⟨2024, 3, 5, 11, 0, 0⟩ }

def rowA : SessionRow := ⟨"S1", "P1", "A1", ⟨2024, 3, 5, 10, 0, 0⟩⟩

theorem c1_successful_deletion_counts_witness :
    processSession envC1 (some "mcdonalds-ttm-audio")
      (some "mcdonalds-ttm/{agent_id}/{date_str}/{session_id}/")
      (some "wipeout_log") rowA initState =
      ({ initState with
          scanned_session_count := 1
          deleted_folder_count := 1
          deleted_file_count := 2
          listings := [("mcdonalds-ttm-audio", "mcdonalds-ttm/A1/2024-03-05/S1/")]
          deletedObjects := ["audio-0.wav", "audio-1.wav"]
          auditCalls := [("wipeout_log",
            ⟨"S1", "2024-03-05T10:00:00", "2024-03-05T11:00:00"⟩)] }, none) :=
  c1_successful_deletion_counts envC1 (some "mcdonalds-ttm-audio")
    (some "mcdonalds-ttm/{agent_id}/{date_str}/{session_id}/") (some "wipeout_log")
    rowA initState "mcdonalds-ttm/A1/2024-03-05/S1/" "wipeout_log"
    ["audio-0.wav", "audio-1.wav"] [] rfl rfl rfl rfl (by decide)
    (by
      intro b hb
      simp only [List.mem_cons, List.not_mem_nil, or_false] at hb
      rcases hb with rfl | rfl <;> rfl)
    rfl rfl

/-- C2: an exception raised inside one session's listing/deletion `try` body
is caught; the session's error counter goes up by exactly one, its scanned
counter by one, and the batch continues with the remaining sessions from the
resulting state (so one session's failure never aborts the batch or the
final summary). -/
theorem c2_session_error_isolation (env : CloudEnv)
    (bucketName tmpl logTable : Option String) (row : SessionRow)
    (rs : List SessionRow) (st st2 : RunState) (pfx e : String)
    (hb : optFalsy bucketName = false) (ht : optFalsy tmpl = false)
    (hfmt : pyFormat (tmpl.getD "") row.agent_id (dateStr row.request_time) row.session_id
      = .ok pfx)
    (hfail : sessionTryBody env (bucketName.getD "") logTable row.session_id
      row.request_time pfx
      { st with scanned_session_count := st.scanned_session_count + 1 } = (st2, some e)) :
    processSession env bucketName tmpl logTable row st =
      ({ st2 with error_count := st2.error_count + 1 }, none) ∧
    processRows env bucketName tmpl logTable (row :: rs) st =
      processRows env bucketName tmpl logTable rs
        { st2 with error_count := st2.error_count + 1 } ∧
    ({ st2 with error_count := st2.error_count + 1 } : RunState).error_count
      = st.error_count + 1 ∧
    ({ st2 with error_count := st2.error_count + 1 } : RunState).scanned_session_count
      = st.scanned_session_count + 1 := by
  have hps : processSession env bucketName tmpl logTable row st =
      ({ st2 with error_count := st2.error_count + 1 }, none) := by
    simp only [processSession, hb, ht, Bool.or_self, Bool.false_eq_true, if_false, hfmt,
      hfail]
  have he := sessionTryBody_error_count env (bucketName.getD "") logTable row.session_id
    row.request_time pfx { st with scanned_session_count := st.scanned_session_count + 1 }
  have hs := sessionTryBody_scanned env (bucketName.getD "") logTable row.session_id
    row.request_time pfx { st with scanned_session_count := st.scanned_session_count + 1 }
  rw [hfail] at he hs
  refine ⟨hps, ?_, by simpa using he, by simpa using hs⟩
  simp only [processRows, hps]

/-- Environment for the C2 witness: the object-store listing raises. -/
def envC2 : CloudEnv :=
  { clientsInit := true
    runQuery := .ok []
    listBlobs := fun _ _ => .error "503 Service Unavailable"
    deleteBlob := fun _ => .ok ()
    insertRowsJson := fun _ _ => .ok []
    utcnow := ⟨2024, 3, 5, 11, 0, 0⟩ }

def rowB : SessionRow := ⟨"S2", "P1", "A1", ⟨2024, 3, 5, 10, 30, 0⟩⟩

theorem c2_session_error_isolation_witness :
    processSession envC2 (some "mcdonalds-ttm-audio")
      (some "mcdonalds-ttm/{agent_id}/{date_str}/{session_id}/") none rowA initState =
      ({ initState with
          scanned_session_count := 1
          error_count := 1
          listings := [("mcdonalds-ttm-audio", "mcdonalds-ttm/A1/2024-03-05/S1/")] },
        none) ∧
    processRows envC2 (some "mcdonalds-ttm-audio")
      (some "mcdonalds-ttm/{agent_id}/{date_str}/{session_id}/") none [rowA, rowB]
      initState =
      processRows envC2 (some "mcdonalds-ttm-audio")
        (some "mcdonalds-ttm/{agent_id}/{date_str}/{session_id}/") none [rowB]
        { initState with
            scanned_session_count := 1
            error_count := 1
            listings := [("mcdonalds-ttm-audio", "mcdonalds-ttm/A1/2024-03-05/S1/")] } ∧
    (1 : Nat) = initState.error_count + 1 ∧
    (1 : Nat) = initState.scanned_session_count + 1 :=
  c2_session_error_isolation envC2 (some "mcdonalds-ttm-audio")
    (some "mcdonalds-ttm/{agent_id}/{date_str}/{session_id}/") none rowA [rowB]
    initState
    { initState with
        scanned_session_count := 1
        listings := [("mcdonalds-ttm-audio", "mcdonalds-ttm/A1/2024-03-05/S1/")] }
    "mcdonalds-ttm/A1/2024-03-05/S1/" "503 Service Unavailable" rfl rfl rfl rfl

/-- C5: for a brand whose configuration lacks (or has a falsy) bucket name or
path template, the row loop counts every matched session as scanned and does
nothing else: no listing, no deletion, no audit call, and the deleted-folder,
deleted-file and error counters stay where they started. -/
theorem c5_log_only_mode (env : CloudEnv) (bucketName tmpl logTable : Option String)
    (rows : List SessionRow) (st : RunState)
    (h : optFalsy bucketName = true ∨ optFalsy tmpl = true) :
    processRows env bucketName tmpl logTable rows st =
      ({ st with scanned_session_count := st.scanned_session_count + rows.length },
        none) := by
  have hcond : (optFalsy bucketName || optFalsy tmpl) = true := by
    rcases h with h | h <;> simp [h]
  induction rows generalizing st with
  | nil => simp [processRows]
  | cons r rs ih =>
    simp only [processRows, processSession, hcond, if_true]
    rw [ih]
    simp [Nat.add_comm, Nat.add_left_comm, Nat.add_assoc]

def envC5 : CloudEnv :=
  { clientsInit := true
    runQuery := .ok []
    listBlobs := fun _ _ => .ok ["audio-0.wav"]
    deleteBlob := fun _ => .ok ()
    insertRowsJson := fun _ _ => .ok []
    utcnow := ⟨2024, 3, 5, 11, 0, 0⟩ }

theorem c5_log_only_mode_witness :
    processRows envC5 none (some "mcdonalds-ttm/{agent_id}/{date_str}/{session_id}/")
      (some "wipeout_log") [rowA, rowB] initState =
      ({ initState with scanned_session_count := 2 }, none) :=
  c5_log_only_mode envC5 none (some "mcdonalds-ttm/{agent_id}/{date_str}/{session_id}/")
    (some "wipeout_log") [rowA, rowB] initState (Or.inl rfl)

/-- C6: a matched session whose rendered prefix lists zero objects only
increments the scanned counter and records the listing; the folder, file and
error counters are untouched, no deletion and no audit call happen, and the
loop continues with the next session from that state. -/
theorem c6_empty_prefix_noop (env : CloudEnv) (bucketName tmpl logTable : Option String)
    (row : SessionRow) (rs : List SessionRow) (st : RunState) (pfx : String)
    (hb : optFalsy bucketName = false) (ht : optFalsy tmpl = false)
    (hfmt : pyFormat (tmpl.getD "") row.agent_id (dateStr row.request_time) row.session_id
      = .ok pfx)
    (hl : env.listBlobs (bucketName.getD "") pfx = .ok []) :
    processSession env bucketName tmpl logTable row st =
      ({ st with
          scanned_session_count := st.scanned_session_count + 1
          listings := st.listings ++ [(bucketName.getD "", pfx)] }, none) ∧
    processRows env bucketName tmpl logTable (row :: rs) st =
      processRows env bucketName tmpl logTable rs
        { st with
            scanned_session_count := st.scanned_session_count + 1
            listings := st.listings ++ [(bucketName.getD "", pfx)] } := by
  have hps : processSession env bucketName tmpl logTable row st =
      ({ st with
          scanned_session_count := st.scanned_session_count + 1
          listings := st.listings ++ [(bucketName.getD "", pfx)] }, none) := by
    simp [processSession, hb, ht, hfmt, sessionTryBody, hl]
  exact ⟨hps, by simp only [processRows, hps]⟩

/-- Environment for the C6 witness: the prefix holds no objects. -/
def envC6 : CloudEnv :=
  { clientsInit := true
    runQuery := .ok []
    listBlobs := fun _ _ => .ok []
    deleteBlob := fun _ => .error "should not be called"
    insertRowsJson := fun _ _ => .error "should not be called"
    utcnow := ⟨2024, 3, 5, 11, 0, 0⟩ }

theorem c6_empty_prefix_noop_witness :
    processSession envC6 (some "mcdonalds-ttm-audio")
      (some "mcdonalds-ttm/{agent_id}/{date_str}/{session_id}/") (some "wipeout_log")
      rowA initState =
      ({ initState with
          scanned_session_count := 1
          listings := [("mcdonalds-ttm-audio", "mcdonalds-ttm/A1/2024-03-05/S1/")] },
        none) ∧
    processRows envC6 (some "mcdonalds-ttm-audio")
      (some "mcdonalds-ttm/{agent_id}/{date_str}/{session_id}/") (some "wipeout_log")
      [rowA, rowB] initState =
      processRows envC6 (some "mcdonalds-ttm-audio")
        (some "mcdonalds-ttm/{agent_id}/{date_str}/{session_id}/") (some "wipeout_log")
        [rowB]
        { initState with
            scanned_session_count := 1
            listings := [("mcdonalds-ttm-audio", "mcdonalds-ttm/A1/2024-03-05/S1/")] } :=
  c6_empty_prefix_noop envC6 (some "mcdonalds-ttm-audio")
    (some "mcdonalds-ttm/{agent_id}/{date_str}/{session_id}/") (some "wipeout_log")
    rowA [rowB] initState "mcdonalds-ttm/A1/2024-03-05/S1/" rfl rfl rfl rfl

/-- C9: when the deletion of the (k)-th listed object raises after k-1
successful deletions, the session keeps the k-1 file-count increments and
deleted objects, the folder counter and audit calls are untouched, the error
counter goes up by one, and the loop does not abort (no escaping exception).
With folder count unchanged while file count grew, the file counter can
exceed what the folder counter implies. -/
theorem c9_partial_deletion_failure (env : CloudEnv)
    (bucketName tmpl logTable : Option String) (row : SessionRow) (st : RunState)
    (pfx e badBlob : String) (good rest : List String)
    (hb : optFalsy bucketName = false) (ht : optFalsy tmpl = false)
    (hfmt : pyFormat (tmpl.getD "") row.agent_id (dateStr row.request_time) row.session_id
      = .ok pfx)
    (hl : env.listBlobs (bucketName.getD "") pfx = .ok (good ++ badBlob :: rest))
    (hgood : ∀ b ∈ good, env.deleteBlob b = .ok ())
    (hbad : env.deleteBlob badBlob = .error e) :
    processSession env bucketName tmpl logTable row st =
      ({ st with
          scanned_session_count := st.scanned_session_count + 1
          deleted_file_count := st.deleted_file_count + good.length
          error_count := st.error_count + 1
          listings := st.listings ++ [(bucketName.getD "", pfx)]
          deletedObjects := st.deletedObjects ++ good }, none) := by
  have hempty : (good ++ badBlob :: rest).isEmpty = false := by cases good <;> rfl
  simp only [processSession, hb, ht, Bool.or_self, Bool.false_eq_true, if_false, hfmt,
    sessionTryBody, hl, hempty]
  rw [deleteBlobs_fails_at env good badBlob rest _ e hgood hbad]

/-- Environment for the C9 witness: three objects are listed, the first
deletes fine, the second raises. -/
def envC9 : CloudEnv :=
  { clientsInit := true
    runQuery := .ok []
    listBlobs := fun _ _ => .ok ["good-0.wav", "bad-1.wav", "never-2.wav"]
    deleteBlob := fun b => if b = "bad-1.wav" then .error "403 Forbidden" else .ok ()
    insertRowsJson := fun _ _ => .ok []
    utcnow := ⟨2024, 3, 5, 11, 0, 0⟩ }

theorem c9_partial_deletion_failure_witness :
    processSession envC9 (some "mcdonalds-ttm-audio")
      (some "mcdonalds-ttm/{agent_id}/{date_str}/{session_id}/") (some "wipeout_log")
      rowA initState =
      ({ initState with
          scanned_session_count := 1
          deleted_file_count := 1
          error_count := 1
          listings := [("mcdonalds-ttm-audio", "mcdonalds-ttm/A1/2024-03-05/S1/")]
          deletedObjects := ["good-0.wav"] }, none) :=
  c9_partial_deletion_failure envC9 (some "mcdonalds-ttm-audio")
    (some "mcdonalds-ttm/{agent_id}/{date_str}/{session_id}/") (some "wipeout_log")
    rowA initState "mcdonalds-ttm/A1/2024-03-05/S1/" "403 Forbidden" "bad-1.wav"
    ["good-0.wav"] ["never-2.wav"] rfl rfl rfl rfl
    (by
      intro b hb
      simp only [List.mem_cons, List.not_mem_nil, or_false] at hb
      subst hb
      rfl)
    rfl

/-- C7: for any candidate session fields, rendering the mcdonalds brand's
configured path template substitutes the agent id, the request date formatted
`YYYY-MM-DD`, and the session id verbatim for the three placeholders; in
particular agent `A1`, request timestamp 2024-03-05T10:00:00Z and session
`S1` render to `mcdonalds-ttm/A1/2024-03-05/S1/`. -/
theorem c7_path_template_rendering (agent sid : String) (ts : Timestamp) :
    pyFormat (MCDONALDS_CONFIG.GCS_PATH_TEMPLATE.getD "") agent (dateStr ts) sid =
      .ok ("mcdonalds-ttm/" ++ agent ++ "/" ++ dateStr ts ++ "/" ++ sid ++ "/") ∧
    dateStr ⟨2024, 3, 5, 10, 0, 0⟩ = "2024-03-05" ∧
    pyFormat (MCDONALDS_CONFIG.GCS_PATH_TEMPLATE.getD "") "A1"
      (dateStr ⟨2024, 3, 5, 10, 0, 0⟩) "S1" = .ok "mcdonalds-ttm/A1/2024-03-05/S1/" := by
  refine ⟨?_, rfl, rfl⟩
  show (pyFormatAux agent (dateStr ts) sid
      "mcdonalds-ttm/{agent_id}/{date_str}/{session_id}/".data).map
        (fun l => String.mk l) = _
  rw [pyFormatAux_mcd]
  simp only [Except.map]
  congr 1
  apply String.ext
  simp [String.data_append, List.append_assoc]

/-- A transcripts table with two turns of the same session inside the time
window, both carrying the redaction marker but with different request times. -/
def ctTable : List TTurn :=
  [⟨"projects/p/locations/l/agents/a/sessions/s", 100, some "x [redacted] y"⟩,
   ⟨"projects/p/locations/l/agents/a/sessions/s", 200, some "x [redacted] y"⟩]

/-- C3 counterexample: `SELECT DISTINCT` deduplicates whole rows, not session
ids.  On `ctTable` the query returns two distinct rows that carry the same
session id, refuting "no two rows of the query result carry the same session
id". -/
theorem c3_duplicate_session_id_counterexample :
    queryRows ctTable 100 none =
      .ok [CandRow.mk "s" "p" "a" 100, CandRow.mk "s" "p" "a" 200] ∧
    (CandRow.mk "s" "p" "a" 100).session_id = (CandRow.mk "s" "p" "a" 200).session_id ∧
    CandRow.mk "s" "p" "a" 100 ≠ CandRow.mk "s" "p" "a" 200 :=
  And.intro rfl (And.intro rfl (by decide))

/-- C3 (amended): the query deduplicates complete result rows: for every
table state, window and wipeout-log content, the result list contains no two
identical (session id, project id, agent id, request time) rows; rows sharing
a session id may still appear when another selected column differs. -/
theorem c3_distinct_result_rows (table : List TTurn) (now : Int)
    (logSessionIds : Option (List String)) (rs : List CandRow)
    (h : queryRows table now logSessionIds = .ok rs) : rs.Nodup := by
  unfold queryRows at h
  split at h
  · exact absurd h (by simp)
  · cases h
    exact List.nodup_dedup _

theorem c3_distinct_result_rows_witness :
    ([CandRow.mk "s" "p" "a" 100, CandRow.mk "s" "p" "a" 200] : List CandRow).Nodup :=
  c3_distinct_result_rows ctTable 100 none
    [CandRow.mk "s" "p" "a" 100, CandRow.mk "s" "p" "a" 200] rfl

/-- C8: a request with no JSON payload, an empty (falsy) JSON object, or a
JSON object without the `brand` key gets the 400 bad-request response, and
the handler performs no query execution, no listing, no deletion and no
audit call (the result state is the initial state and `queryRan` is false). -/
theorem c8_missing_brand_bad_request (env : CloudEnv) (request : Request)
    (hcl : env.clientsInit = true)
    (h : request = none ∨ ∃ kvs, request = some kvs ∧
        (kvs = [] ∨ lookupKey kvs "brand" = none)) :
    fetch_redacted_transcripts_and_delete_audio env request =
      ⟨"Bad Request: Missing JSON payload with 'brand' key.", 400, initState, false⟩ := by
  unfold fetch_redacted_transcripts_and_delete_audio handlerWith
  rcases h with rfl | ⟨kvs, rfl, hk⟩
  · simp [hcl, badRequestResult]
  · rcases hk with rfl | hlook
    · simp [hcl, badRequestResult]
    · cases kvs with
      | nil => simp [hcl, badRequestResult]
      | cons p ps => simp [hcl, hlook, badRequestResult]

def envC8 : CloudEnv :=
  { clientsInit := true
    runQuery := .error "should not be executed"
    listBlobs := fun _ _ => .error "should not be called"
    deleteBlob := fun _ => .error "should not be called"
    insertRowsJson := fun _ _ => .error "should not be called"
    utcnow := ⟨2024, 3, 5, 11, 0, 0⟩ }

theorem c8_missing_brand_bad_request_witness :
    fetch_redacted_transcripts_and_delete_audio envC8 none =
      ⟨"Bad Request: Missing JSON payload with 'brand' key.", 400, initState, false⟩ :=
  c8_missing_brand_bad_request envC8 none rfl (Or.inl rfl)

/-- C10: an exception raised while rendering the storage prefix happens
outside the per-session `try` handler: the session's error counter is not
incremented, the remaining rows are never processed, and the outer handler
turns the exception into a 500 "Job failed" response whose final state keeps
the effects (deletions, audit calls) of the sessions processed before. -/
theorem c10_render_error_aborts_invocation (configs : List (String × BrandConfig))
    (env : CloudEnv) (brandRaw : String) (cfg : BrandConfig) (row : SessionRow)
    (pre post : List SessionRow) (stP : RunState) (e : String)
    (hcl : env.clientsInit = true)
    (hget : dictGet configs (pyLower brandRaw) = some cfg)
    (htbl : optFalsy cfg.TRANSCRIPTS_TABLE_PATH = false)
    (hb : optFalsy cfg.BUCKET_NAME = false)
    (ht : optFalsy cfg.GCS_PATH_TEMPLATE = false)
    (hq : env.runQuery = .ok (pre ++ row :: post))
    (hpre : processRows env cfg.BUCKET_NAME cfg.GCS_PATH_TEMPLATE
      cfg.WIPEOUT_LOG_TABLE_PATH pre initState = (stP, none))
    (hfmt : pyFormat (cfg.GCS_PATH_TEMPLATE.getD "") row.agent_id (dateStr row.request_time)
      row.session_id = .error e) :
    processSession env cfg.BUCKET_NAME cfg.GCS_PATH_TEMPLATE cfg.WIPEOUT_LOG_TABLE_PATH
      row stP =
      ({ stP with scanned_session_count := stP.scanned_session_count + 1 }, some e) ∧
    handlerWith configs env (some [("brand", brandRaw)]) =
      ⟨"Job failed for brand '" ++ pyLower brandRaw ++ "' with error: " ++ e, 500,
        { stP with scanned_session_count := stP.scanned_session_count + 1 }, true⟩ ∧
    ({ stP with scanned_session_count := stP.scanned_session_count + 1 } : RunState).error_count
      = stP.error_count := by
  have hps : processSession env cfg.BUCKET_NAME cfg.GCS_PATH_TEMPLATE
      cfg.WIPEOUT_LOG_TABLE_PATH row stP =
      ({ stP with scanned_session_count := stP.scanned_session_count + 1 }, some e) := by
    simp only [processSession, hb, ht, Bool.or_self, Bool.false_eq_true, if_false, hfmt]
  have hrows : processRows env cfg.BUCKET_NAME cfg.GCS_PATH_TEMPLATE
      cfg.WIPEOUT_LOG_TABLE_PATH (pre ++ row :: post) initState =
      ({ stP with scanned_session_count := stP.scanned_session_count + 1 }, some e) := by
    rw [processRows_append env cfg.BUCKET_NAME cfg.GCS_PATH_TEMPLATE
      cfg.WIPEOUT_LOG_TABLE_PATH pre (row :: post) initState stP hpre]
    simp only [processRows, hps]
  have hlk : lookupKey [("brand", brandRaw)] "brand" = some brandRaw := rfl
  refine ⟨hps, ?_, rfl⟩
  simp only [handlerWith, hcl, Bool.not_true, Bool.false_eq_true, if_false,
    List.isEmpty_cons, hlk, hget, htbl, hq, hrows]

/-- A brand configuration whose path template holds a placeholder that
`str.format` does not know, so rendering raises `KeyError`. -/
def BADTMPL_CONFIG : BrandConfig :=
  { TRANSCRIPTS_TABLE_PATH := some "proj.dataset.transcripts"
    BUCKET_NAME := some "some-audio-bucket"
    WIPEOUT_LOG_TABLE_PATH := none
    GCS_PATH_TEMPLATE := some "audio/{agent}/{session_id}/" }

def c10Configs : List (String × BrandConfig) := [("badbrand", BADTMPL_CONFIG)]

def envC10 : CloudEnv :=
  { clientsInit := true
    runQuery := .ok [rowA]
    listBlobs := fun _ _ => .ok []
    deleteBlob := fun _ => .ok ()
    insertRowsJson := fun _ _ => .ok []
    utcnow := ⟨2024, 3, 5, 11, 0, 0⟩ }

theorem c10_render_error_aborts_invocation_witness :
    processSession envC10 BADTMPL_CONFIG.BUCKET_NAME BADTMPL_CONFIG.GCS_PATH_TEMPLATE
      BADTMPL_CONFIG.WIPEOUT_LOG_TABLE_PATH rowA initState =
      ({ initState with scanned_session_count := 1 },
        some "KeyError: unknown placeholder in path template") ∧
    handlerWith c10Configs envC10 (some [("brand", "badbrand")]) =
      ⟨"Job failed for brand 'badbrand' with error: KeyError: unknown placeholder in path template",
        500, { initState with scanned_session_count := 1 }, true⟩ ∧
    ({ initState with scanned_session_count := 1 } : RunState).error_count
      = initState.error_count :=
  c10_render_error_aborts_invocation c10Configs envC10 "badbrand" BADTMPL_CONFIG rowA
    [] [] initState "KeyError: unknown placeholder in path template"
    rfl rfl rfl rfl rfl rfl rfl rfl

/-- Environment exhibiting the audit-write bug: the streaming insert returns
a non-empty per-row error list (the BigQuery API reports row-level insert
failures through its return value, not by raising). -/
def envC4 : CloudEnv :=
  { clientsInit := true
    runQuery := .ok [rowA]
    listBlobs := fun _ _ => .ok ["audio-0.wav"]
    deleteBlob := fun _ => .ok ()
    insertRowsJson := fun _ _ => .ok ["insert failed: row 0 invalid"]
    utcnow := ⟨2024, 3, 5, 11, 30, 0⟩ }

/-- C4 (code bug): a session is fully deleted and the audit insert call is
made, but the call returns a non-empty error list; because `main.py`
hard-codes `insert_errors = None` and discards the value returned by
`insert_rows_json`, the failure is never detected: the run ends with status
200 and `error_count = 0`, while the deletion effects stand (folder and file
counters at 1, the audit call recorded with both ISO-8601 timestamps). -/
theorem c4_audit_write_failure_undetected :
    (fetch_redacted_transcripts_and_delete_audio envC4 (some [("brand", "mcdonalds")])).status
      = 200 ∧
    (fetch_redacted_transcripts_and_delete_audio envC4
      (some [("brand", "mcdonalds")])).state.error_count = 0 ∧
    (fetch_redacted_transcripts_and_delete_audio envC4
      (some [("brand", "mcdonalds")])).state.deleted_folder_count = 1 ∧
    (fetch_redacted_transcripts_and_delete_audio envC4
      (some [("brand", "mcdonalds")])).state.deleted_file_count = 1 ∧
    (fetch_redacted_transcripts_and_delete_audio envC4
      (some [("brand", "mcdonalds")])).state.auditCalls =
      [("foodai-analytics.audio_wipeout_dataset.mcdonalds_prod_log",
        ⟨"S1", "2024-03-05T10:00:00", "2024-03-05T11:30:00"⟩)] ∧
    envC4.insertRowsJson "foodai-analytics.audio_wipeout_dataset.mcdonalds_prod_log"
      [⟨"S1", "2024-03-05T10:00:00", "2024-03-05T11:30:00"⟩]
      = .ok ["insert failed: row 0 invalid"] :=
  ⟨rfl, rfl, rfl, rfl, rfl, rfl⟩
